import Mathlib

/-
Shallow embedding of `qiskit/visualization/timeline/interface.py`.

The file under verification contains the single entry point `draw`, which
resolves a stylesheet, builds and configures a `DrawerCanvas`, invokes a
plotter, optionally saves the produced figure, and returns the image.

The collaborating modules (`stylesheet`, `core`, `types`, `plotters`) are not
part of the source tree available here; the definitions standing in for them
are modelled from the specification (see the individual doc comments), while
`draw` itself and everything it decides (ordering of the pipeline, the
control-flag overrides, label disabling, plotter dispatch, saving) is
translated directly from the source of `interface.py`.

Besides the resulting state, the embedding of `draw` records an event trace:
one event per observable call `draw` performs, in program order.  Temporal
claims are stated as ordering properties of that trace.
-/

namespace Timeline

/-- Values stored in a stylesheet mapping: booleans (control flags), numbers,
strings (colors, symbols) and callables (generators, layouts), the latter
identified by name. -/
inductive StyleVal
  | bool (b : Bool)
  | num (n : Int)
  | str (s : String)
  | fn (f : String)
  deriving DecidableEq

/-- A stylesheet: flat, insertion-ordered mapping of dotted keys to values
(the Python `dict` underlying `QiskitTimelineStyle`). -/
abbrev Style := List (String × StyleVal)

/-- Lookup of a dotted key; the unique binding for the key is returned. -/
def styleGet : Style → String → Option StyleVal
  | [], _ => none
  | (k2, v) :: rest, k => if k2 = k then some v else styleGet rest k

/-- Does the mapping bind the key? -/
def hasKey : Style → String → Bool
  | [], _ => false
  | (k2, _) :: rest, k => if k2 = k then true else hasKey rest k

/-- Replace the value of every binding of the key, keeping positions. -/
def replaceKey : Style → String → StyleVal → Style
  | [], _, _ => []
  | (k2, v2) :: rest, k, v =>
      (if k2 = k then (k, v) else (k2, v2)) :: replaceKey rest k v

/-- Python `d[k] = v`: replace the binding in place when present
(insertion order preserved), append otherwise. -/
def setItem (s : Style) (k : String) (v : StyleVal) : Style :=
  if hasKey s k then replaceKey s k v else s ++ [(k, v)]

/-- Python `d.update(m)`: fold the entries of `m` into `d`, left to right.
The argument `entries` is only read, never written. -/
def styleUpdate (s : Style) (entries : List (String × StyleVal)) : Style :=
  entries.foldl (fun acc kv => setItem acc kv.1 kv.2) s

/-- Modelled from the spec: `stylesheet.QiskitTimelineStyle` is not under
src/.  A freshly constructed instance carries the documented defaults; the
entries below follow the defaults table of the `draw` docstring (all four
`formatter.control.*` flags default to `True`, `fig_width` 14, `dpi` 150,
`minimum_duration` 50, no generator or layout registered). -/
def defaultStyle : Style :=
  [("formatter.general.fig_width", StyleVal.num 14),
   ("formatter.general.dpi", StyleVal.num 150),
   ("formatter.margin.minimum_duration", StyleVal.num 50),
   ("formatter.color.background", StyleVal.str "#FFFFFF"),
   ("formatter.control.show_idle", StyleVal.bool true),
   ("formatter.control.show_clbits", StyleVal.bool true),
   ("formatter.control.show_barriers", StyleVal.bool true),
   ("formatter.control.show_delays", StyleVal.bool true),
   ("formatter.layer.gate", StyleVal.num 3)]

/-- Modelled from the spec: `stylesheet.IQXStandard` is not under src/.  It is
a preset stylesheet bundle, i.e. a nonempty mapping of dotted keys; the
concrete entries stand for its generator and layout registrations. -/
def IQXStandardEntries : List (String × StyleVal) :=
  [("generator.gates", StyleVal.fn "gen_sched_gate"),
   ("generator.bits", StyleVal.fn "gen_bit_timeslot"),
   ("layout.bit_arrange", StyleVal.fn "qubit_index_sort"),
   ("layout.time_axis_map", StyleVal.fn "time_map_in_dt")]

/-- Modelled from the spec: `types.LabelType.DELAY`, the semantic tag of
delay label text primitives. -/
def LabelType.DELAY : String := "delay"

/-- Modelled from the spec: `types.LabelType.GATE_PARAM`, the semantic tag of
gate parameter label text primitives. -/
def LabelType.GATE_PARAM : String := "gate_param"

/-- Modelled from the spec: `types.LabelType.GATE_NAME`, the semantic tag of
gate name label text primitives. -/
def LabelType.GATE_NAME : String := "gate_name"

/-- The three label semantic tags disabled by `show_labels=False`, in the
order they are listed in `draw` (lines 378-380 of interface.py). -/
def labelTypes : List String :=
  [LabelType.DELAY, LabelType.GATE_PARAM, LabelType.GATE_NAME]

/-- Modelled from the spec: `types.Plotter.MPL.value`, the name of the single
registered plotter (the `draw` docstring lists `mpl` as the only API). -/
def Plotter.MPL : String := "mpl"

/-- Modelled from the spec: a bit is an addressable lane, quantum-carrying or
classical-carrying (`types.Bits = Union[Qubit, Clbit]`). -/
inductive BitKind
  | qubit
  | clbit
  deriving DecidableEq

/-- A lane identity: kind plus index. -/
structure Bits where
  kind : BitKind
  index : Nat
  deriving DecidableEq

/-- The scheduled program handed to `draw`.  `draw` never inspects it itself;
it is only forwarded to `DrawerCanvas.load_program`, so it is opaque here. -/
structure Program where
  pid : Nat
  deriving DecidableEq

/-- Modelled from the spec: `core.DrawerCanvas` is not under src/.  Its state
per spec section 4.2: the stylesheet it was created with, the loaded program,
the time-range window, the disabled lanes, the disabled primitive semantic
tags, and the number of times `update` has rebuilt the primitive cache. -/
structure DrawerCanvas where
  stylesheet : Style
  program : Option Program
  timeRange : Option (Int × Int)
  disabledBits : List Bits
  disabledTypes : List String
  updateCount : Nat
  deriving DecidableEq

/-- Modelled from the spec: `DrawerCanvas(stylesheet=...)` starts empty with
the given stylesheet. -/
def DrawerCanvas.init (s : Style) : DrawerCanvas :=
  ⟨s, none, none, [], [], 0⟩

/-- Modelled from the spec: `load_program` stores the program; generators do
not run yet. -/
def DrawerCanvas.load_program (c : DrawerCanvas) (p : Program) : DrawerCanvas :=
  { c with program := some p }

/-- Modelled from the spec: `set_time_range` sets the visible window. -/
def DrawerCanvas.set_time_range (c : DrawerCanvas) (t0 t1 : Int) : DrawerCanvas :=
  { c with timeRange := some (t0, t1) }

/-- Modelled from the spec: `set_disable_bits` toggles a lane's visibility;
`remove = true` disables it. -/
def DrawerCanvas.set_disable_bits (c : DrawerCanvas) (b : Bits) (remove : Bool) :
    DrawerCanvas :=
  if remove then { c with disabledBits := c.disabledBits ++ [b] }
  else { c with disabledBits := c.disabledBits.filter (fun x => !(x == b)) }

/-- Modelled from the spec: `set_disable_type` toggles the visibility of a
primitive semantic tag; `remove = true` disables it. -/
def DrawerCanvas.set_disable_type (c : DrawerCanvas) (t : String) (remove : Bool) :
    DrawerCanvas :=
  if remove then { c with disabledTypes := c.disabledTypes ++ [t] }
  else { c with disabledTypes := c.disabledTypes.filter (fun x => !(x == t)) }

/-- Modelled from the spec: `update` recomputes the primitive collection from
the current state; here only the rebuild counter is observable. -/
def DrawerCanvas.update (c : DrawerCanvas) : DrawerCanvas :=
  { c with updateCount := c.updateCount + 1 }

/-- Which mapping a stylesheet write targets: the per-call `temp_style`
object created inside `draw`, or the caller-supplied `style` mapping. -/
inductive StyleTarget
  | tempStyle
  | callerStyle
  deriving DecidableEq

/-- One observable call performed by `draw`, in program order. -/
inductive Ev
  | styleCreate
  | styleUpdateCall
  | styleSetItem (target : StyleTarget) (key : String) (v : StyleVal)
  | canvasCreate
  | loadProgramCall
  | setTimeRangeCall (t0 t1 : Int)
  | setDisableBitsCall (b : Bits)
  | setDisableTypeCall (t : String)
  | updateCall
  | plotterCreate
  | plotterDrawCall
  | saveFileCall (name : String)
  | getImageCall
  | errorRaised
  deriving DecidableEq

/-- The two error kinds `draw` can raise: `VisualizationError` for an unknown
plotter name, `ImportError` for a missing Matplotlib dependency. -/
inductive DrawError
  | visualizationError (msg : String)
  | importError (msg : String)
  deriving DecidableEq

/-- The style argument of `draw`: either a preset stylesheet object
(`IQXStandard()`-like) or a raw dotted-key dictionary.  Both are mappings;
only the constructor differs. -/
inductive StyleArg
  | preset (entries : List (String × StyleVal))
  | dict (entries : List (String × StyleVal))
  deriving DecidableEq

/-- The entries of a style argument, whichever form it takes. -/
def StyleArg.entries : StyleArg → List (String × StyleVal)
  | StyleArg.preset es => es
  | StyleArg.dict es => es

/-- Python truthiness of the `style` argument: `None` and empty mappings are
falsy. -/
def styleTruthy : Option StyleArg → Bool
  | none => false
  | some sa => !sa.entries.isEmpty

/-- Python truthiness of the `filename` argument: `None` and the empty string
are falsy. -/
def filenameTruthy : Option String → Bool
  | none => false
  | some s => !s.isEmpty

/-- The argument list of `draw` (interface.py lines 31-42), with `axis`
reduced to whether one was given, plus nothing else: the availability of the
Matplotlib dependency is passed to `draw` separately as an environment
fact. -/
structure DrawArgs where
  program : Program
  style : Option StyleArg
  timeRange : Option (Int × Int)
  disableBits : List Bits
  showClbits : Option Bool
  showIdle : Option Bool
  showBarriers : Option Bool
  showDelays : Option Bool
  showLabels : Bool
  plotter : String
  axisGiven : Bool
  filename : Option String
  deriving DecidableEq

/-- Line 344: `style or stylesheet.IQXStandard()` — the mapping actually fed
to `temp_style.update`. -/
def effectiveStyleEntries : Option StyleArg → List (String × StyleVal)
  | none => IQXStandardEntries
  | some sa => if sa.entries.isEmpty then IQXStandardEntries else sa.entries

/-- One control-flag override (lines 347-357): `None` leaves the style
untouched, a boolean is assigned to the dotted key. -/
def applyControl (s : Style) (key : String) : Option Bool → Style
  | none => s
  | some b => setItem s key (StyleVal.bool b)

/-- Lines 342-357: the per-call `temp_style` after
`QiskitTimelineStyle()` + `update` + the four control-flag overrides,
applied in source order (idle, clbits, barriers, delays). -/
def resolveStyle (style : Option StyleArg)
    (showIdle showClbits showBarriers showDelays : Option Bool) : Style :=
  applyControl
    (applyControl
      (applyControl
        (applyControl (styleUpdate defaultStyle (effectiveStyleEntries style))
          "formatter.control.show_idle" showIdle)
        "formatter.control.show_clbits" showClbits)
      "formatter.control.show_barriers" showBarriers)
    "formatter.control.show_delays" showDelays

/-- The resolved per-call style of a `draw` invocation. -/
def resolvedOf (args : DrawArgs) : Style :=
  resolveStyle args.style args.showIdle args.showClbits args.showBarriers
    args.showDelays

/-- The style before the control-flag overrides: `QiskitTimelineStyle()`
updated once with the effective style input. -/
def baseStyleOf (args : DrawArgs) : Style :=
  styleUpdate defaultStyle (effectiveStyleEntries args.style)

/-- Lines 359-361: the canvas created over the resolved style with the
program loaded. -/
def canvasAfterLoad (args : DrawArgs) : DrawerCanvas :=
  (DrawerCanvas.init (resolvedOf args)).load_program args.program

/-- Lines 368-369: the optional `set_time_range` call applied. -/
def canvasAfterTimeRange (args : DrawArgs) : DrawerCanvas :=
  match args.timeRange with
  | some (t0, t1) => (canvasAfterLoad args).set_time_range t0 t1
  | none => canvasAfterLoad args

/-- Lines 372-374: the `set_disable_bits` calls applied (the loop runs only
when the list is truthy). -/
def canvasAfterBits (args : DrawArgs) : DrawerCanvas :=
  if args.disableBits.isEmpty then canvasAfterTimeRange args
  else args.disableBits.foldl (fun acc b => acc.set_disable_bits b true)
    (canvasAfterTimeRange args)

/-- Lines 359-382: the canvas as configured by `draw` just before `update()`
is invoked (with `show_labels=False` the three label types are disabled
last). -/
def configuredCanvas (args : DrawArgs) : DrawerCanvas :=
  if args.showLabels then canvasAfterBits args
  else labelTypes.foldl (fun acc t => acc.set_disable_type t true)
    (canvasAfterBits args)

/-- Trace of one control-flag override: empty for `None`, one write to the
per-call `temp_style` otherwise. -/
def controlEvents (key : String) : Option Bool → List Ev
  | none => []
  | some b => [Ev.styleSetItem StyleTarget.tempStyle key (StyleVal.bool b)]

/-- Trace of lines 342-357: construct `temp_style`, update it once with the
effective style input, then the four control-flag writes in source order. -/
def stylePhaseTrace (args : DrawArgs) : List Ev :=
  [Ev.styleCreate, Ev.styleUpdateCall]
  ++ controlEvents "formatter.control.show_idle" args.showIdle
  ++ controlEvents "formatter.control.show_clbits" args.showClbits
  ++ controlEvents "formatter.control.show_barriers" args.showBarriers
  ++ controlEvents "formatter.control.show_delays" args.showDelays

/-- Trace of line 368-369: `set_time_range` when a range was given. -/
def timeRangeTrace : Option (Int × Int) → List Ev
  | some (t0, t1) => [Ev.setTimeRangeCall t0 t1]
  | none => []

/-- Trace of lines 372-374: one `set_disable_bits` call per listed bit
(guarded by the list's truthiness). -/
def disableBitsTrace (bits : List Bits) : List Ev :=
  if bits.isEmpty then [] else bits.map Ev.setDisableBitsCall

/-- Trace of lines 377-382: with `show_labels=False`, one `set_disable_type`
call per label type. -/
def labelsTrace (showLabels : Bool) : List Ev :=
  if showLabels then [] else labelTypes.map Ev.setDisableTypeCall

/-- Trace of lines 359-384: canvas creation, `load_program`, the per-call
configuration setters, then `update()`. -/
def configTrace (args : DrawArgs) : List Ev :=
  [Ev.canvasCreate, Ev.loadProgramCall]
  ++ timeRangeTrace args.timeRange
  ++ disableBitsTrace args.disableBits
  ++ labelsTrace args.showLabels
  ++ [Ev.updateCall]

/-- Trace of lines 402-403: `save_file` when `filename` is truthy. -/
def savePhase : Option String → List Ev
  | none => []
  | some s => if s.isEmpty then [] else [Ev.saveFileCall s]

/-- The observable outcome of `draw`: the event trace, the raised error if
any (`none` means the image was returned), and the canvas that was built. -/
structure DrawOut where
  trace : List Ev
  error : Option DrawError
  canvas : DrawerCanvas
  deriving DecidableEq

/-- Lines 342-405 of interface.py: the full `draw` pipeline.  The style phase
and the canvas phase always run; the plotter branch then either creates and
runs the Matplotlib plotter (known name, dependency available), raises
`ImportError` (known name, dependency missing, line 394) or raises
`VisualizationError` (unknown name, line 399); on success the figure is
optionally saved (lines 402-403) and the image returned (line 405). -/
def draw (args : DrawArgs) (mplAvailable : Bool) : DrawOut :=
  let preTrace := stylePhaseTrace args ++ configTrace args
  let canvas := (configuredCanvas args).update
  if args.plotter = Plotter.MPL then
    if mplAvailable then
      ⟨preTrace ++ [Ev.plotterCreate, Ev.plotterDrawCall]
         ++ savePhase args.filename ++ [Ev.getImageCall], none, canvas⟩
    else
      ⟨preTrace ++ [Ev.errorRaised],
       some (DrawError.importError "Must have Matplotlib installed."), canvas⟩
  else
    ⟨preTrace ++ [Ev.errorRaised],
     some (DrawError.visualizationError
       ("Plotter API " ++ args.plotter ++ " is not supported.")), canvas⟩

/- Event classifiers used by the temporal claims. -/

/-- Events of the style-resolution phase. -/
def isStyleEv : Ev → Bool
  | Ev.styleCreate => true
  | Ev.styleUpdateCall => true
  | Ev.styleSetItem _ _ _ => true
  | _ => false

/-- Stylesheet item writes. -/
def isStyleSetItemEv : Ev → Bool
  | Ev.styleSetItem _ _ _ => true
  | _ => false

/-- Canvas construction. -/
def isCanvasCreateEv : Ev → Bool
  | Ev.canvasCreate => true
  | _ => false

/-- The `load_program` call. -/
def isLoadProgramEv : Ev → Bool
  | Ev.loadProgramCall => true
  | _ => false

/-- The per-call configuration setters. -/
def isSetterEv : Ev → Bool
  | Ev.setTimeRangeCall _ _ => true
  | Ev.setDisableBitsCall _ => true
  | Ev.setDisableTypeCall _ => true
  | _ => false

/-- `set_disable_type` calls. -/
def isDisableTypeEv : Ev → Bool
  | Ev.setDisableTypeCall _ => true
  | _ => false

/-- `update()` calls. -/
def isUpdateEv : Ev → Bool
  | Ev.updateCall => true
  | _ => false

/-- Plotter construction and `plotter.draw()`. -/
def isPlotterEv : Ev → Bool
  | Ev.plotterCreate => true
  | Ev.plotterDrawCall => true
  | _ => false

/-- The `plotter.draw()` render call. -/
def isPlotterDrawEv : Ev → Bool
  | Ev.plotterDrawCall => true
  | _ => false

/-- `save_file` calls. -/
def isSaveEv : Ev → Bool
  | Ev.saveFileCall _ => true
  | _ => false

/-- The `get_image` call returning the artifact. -/
def isGetImageEv : Ev → Bool
  | Ev.getImageCall => true
  | _ => false

/-- The point at which an error is raised. -/
def isErrorEv : Ev → Bool
  | Ev.errorRaised => true
  | _ => false

/-- The stylesheet entry written by an event into the caller-supplied style
mapping, if any.  `draw` itself only ever writes `temp_style`; `update` reads
its argument (spec section 9: per-call overrides are applied only to the
resolved per-call configuration). -/
def callerEntry : Ev → Option (String × StyleVal)
  | Ev.styleSetItem StyleTarget.callerStyle k v => some (k, v)
  | _ => none

/-- Does the event write the caller-supplied style mapping? -/
def writesCallerStyle (e : Ev) : Bool :=
  (callerEntry e).isSome

/-- All writes a trace performs on the caller-supplied style mapping. -/
def callerWriteEntries (tr : List Ev) : List (String × StyleVal) :=
  tr.filterMap callerEntry

/-- The caller-supplied style mapping after the trace ran, i.e. its initial
contents with every recorded caller-targeted write folded in. -/
def callerStyleAfter (init : Style) (tr : List Ev) : Style :=
  styleUpdate init (callerWriteEntries tr)

/-- Every `p`-event of the trace occurs strictly before every `q`-event:
whenever a `q`-event is reached, no later event satisfies `p`. -/
def precedes (p q : Ev → Bool) : List Ev → Bool
  | [] => true
  | e :: rest =>
      (!(q e) || rest.all (fun x => !(p x))) && precedes p q rest

/-- Is the first character list a prefix of the second? -/
def charsPre : List Char → List Char → Bool
  | [], _ => true
  | _ :: _, [] => false
  | a :: as, b :: bs => a == b && charsPre as bs

/-- Does the second character list contain the first as a contiguous run? -/
def charsSub : List Char → List Char → Bool
  | sub, [] => sub.isEmpty
  | sub, b :: bs => charsPre sub (b :: bs) || charsSub sub bs

/-- Does the error message name the Matplotlib dependency? -/
def namesMatplotlib (s : String) : Bool :=
  charsSub "Matplotlib".toList s.toList

/- Concrete inputs used by witnesses and counterexamples. -/

/-- A concrete scheduled program. -/
def exProgram : Program := ⟨0⟩

/-- A plain `draw(program)` call: all optional arguments at their default. -/
def exArgsBase : DrawArgs :=
  ⟨exProgram, none, none, [], none, none, none, none, true, Plotter.MPL,
   false, none⟩

/-- A call selecting the unregistered plotter name `svg2`. -/
def exArgsSvg2 : DrawArgs :=
  ⟨exProgram, none, none, [], none, none, none, none, true, "svg2",
   false, none⟩

/-- A call overriding `show_idle=False` and `show_barriers=True`, leaving
`show_clbits` and `show_delays` unset. -/
def exArgsFlags : DrawArgs :=
  ⟨exProgram, none, none, [], none, some false, some true, none, true,
   Plotter.MPL, false, none⟩

/- Stylesheet lookup lemmas. -/

/-- After replacing an existing binding, lookup of the key gives the new
value. -/
theorem styleGet_replaceKey_self (s : Style) (k : String) (v : StyleVal)
    (h : hasKey s k = true) :
    styleGet (replaceKey s k v) k = some v := by
  induction s with
  | nil => simp [hasKey] at h
  | cons hd tl ih =>
      obtain ⟨k2, v2⟩ := hd
      simp only [replaceKey]
      by_cases hk : k2 = k
      · rw [if_pos hk]
        simp [styleGet]
      · rw [if_neg hk]
        simp only [hasKey, if_neg hk] at h
        simp only [styleGet, if_neg hk]
        exact ih h

/-- Replacing one key leaves lookups of every other key unchanged. -/
theorem styleGet_replaceKey_ne (s : Style) (k : String) (v : StyleVal)
    (k2 : String) (h : k2 ≠ k) :
    styleGet (replaceKey s k v) k2 = styleGet s k2 := by
  induction s with
  | nil => rfl
  | cons hd tl ih =>
      obtain ⟨k3, v3⟩ := hd
      simp only [replaceKey]
      by_cases hk : k3 = k
      · rw [if_pos hk]
        have h2 : ¬(k3 = k2) := by
          rw [hk]
          exact Ne.symm h
        simp only [styleGet, if_neg (Ne.symm h), if_neg h2]
        exact ih
      · rw [if_neg hk]
        by_cases h3 : k3 = k2
        · simp only [styleGet, if_pos h3]
        · simp only [styleGet, if_neg h3]
          exact ih

/-- Lookup skips over an initial segment that does not bind the key. -/
theorem styleGet_append_of_not_hasKey (s t : Style) (k : String)
    (h : hasKey s k = false) :
    styleGet (s ++ t) k = styleGet t k := by
  induction s with
  | nil => rfl
  | cons hd tl ih =>
      obtain ⟨k2, v2⟩ := hd
      by_cases hk : k2 = k
      · simp only [hasKey, if_pos hk] at h
        exact absurd h (by simp)
      · simp only [hasKey, if_neg hk] at h
        simp only [List.cons_append, styleGet, if_neg hk]
        exact ih h

/-- Appending a binding of a different key leaves a lookup unchanged. -/
theorem styleGet_append_single_ne (s : Style) (k : String) (v : StyleVal)
    (k2 : String) (h : k2 ≠ k) :
    styleGet (s ++ [(k, v)]) k2 = styleGet s k2 := by
  induction s with
  | nil =>
      simp only [List.nil_append, styleGet, if_neg (Ne.symm h)]
  | cons hd tl ih =>
      obtain ⟨k3, v3⟩ := hd
      simp only [List.cons_append, styleGet]
      by_cases h3 : k3 = k2
      · rw [if_pos h3, if_pos h3]
      · rw [if_neg h3, if_neg h3]
        exact ih

/-- `setItem` makes the key map to the assigned value. -/
theorem styleGet_setItem_self (s : Style) (k : String) (v : StyleVal) :
    styleGet (setItem s k v) k = some v := by
  unfold setItem
  by_cases h : hasKey s k = true
  · rw [if_pos h]
    exact styleGet_replaceKey_self s k v h
  · have h2 : hasKey s k = false := by simpa using h
    rw [if_neg (by simp [h2])]
    rw [styleGet_append_of_not_hasKey s [(k, v)] k h2]
    simp [styleGet]

/-- `setItem` leaves every other key unchanged. -/
theorem styleGet_setItem_ne (s : Style) (k : String) (v : StyleVal)
    (k2 : String) (h : k2 ≠ k) :
    styleGet (setItem s k v) k2 = styleGet s k2 := by
  unfold setItem
  by_cases hk : hasKey s k = true
  · rw [if_pos hk]
    exact styleGet_replaceKey_ne s k v k2 h
  · rw [if_neg (by simp [show hasKey s k = false by simpa using hk])]
    exact styleGet_append_single_ne s k v k2 h

/-- A `None` control flag is the identity on the style. -/
theorem applyControl_none (s : Style) (key : String) :
    applyControl s key none = s := rfl

/-- A supplied control flag writes exactly its boolean to its key. -/
theorem styleGet_applyControl_some (s : Style) (key : String) (b : Bool) :
    styleGet (applyControl s key (some b)) key = some (StyleVal.bool b) :=
  styleGet_setItem_self s key (StyleVal.bool b)

/-- A control-flag override leaves every other key unchanged. -/
theorem styleGet_applyControl_ne (s : Style) (key : String) (o : Option Bool)
    (k2 : String) (h : k2 ≠ key) :
    styleGet (applyControl s key o) k2 = styleGet s k2 := by
  cases o with
  | none => rfl
  | some b => exact styleGet_setItem_ne s key (StyleVal.bool b) k2 h

/- Trace-ordering lemmas. -/

/-- A list with no `p`-event trivially satisfies `precedes p q`. -/
theorem precedes_of_no_p (p q : Ev → Bool) (l : List Ev)
    (h : l.all (fun e => !(p e)) = true) : precedes p q l = true := by
  induction l with
  | nil => rfl
  | cons e rest ih =>
      rw [List.all_cons, Bool.and_eq_true] at h
      simp only [precedes, Bool.and_eq_true, Bool.or_eq_true]
      exact ⟨Or.inr h.2, ih h.2⟩

/-- A list with no `q`-event trivially satisfies `precedes p q`. -/
theorem precedes_of_no_q (p q : Ev → Bool) (l : List Ev)
    (h : l.all (fun e => !(q e)) = true) : precedes p q l = true := by
  induction l with
  | nil => rfl
  | cons e rest ih =>
      rw [List.all_cons, Bool.and_eq_true] at h
      simp only [precedes, Bool.and_eq_true, Bool.or_eq_true]
      exact ⟨Or.inl h.1, ih h.2⟩

/-- Prepending events that are not `q`-events preserves `precedes p q`. -/
theorem precedes_append_left (p q : Ev → Bool) (A B : List Ev)
    (hA : A.all (fun e => !(q e)) = true) (hB : precedes p q B = true) :
    precedes p q (A ++ B) = true := by
  induction A with
  | nil => simpa using hB
  | cons e rest ih =>
      rw [List.all_cons, Bool.and_eq_true] at hA
      simp only [List.cons_append, precedes, Bool.and_eq_true, Bool.or_eq_true]
      exact ⟨Or.inl hA.1, ih hA.2⟩

/-- Appending events that are not `p`-events preserves `precedes p q`. -/
theorem precedes_append_right (p q : Ev → Bool) (A B : List Ev)
    (hB : B.all (fun e => !(p e)) = true) (hA : precedes p q A = true) :
    precedes p q (A ++ B) = true := by
  induction A with
  | nil => simpa using precedes_of_no_p p q B hB
  | cons e rest ih =>
      simp only [precedes, Bool.and_eq_true, Bool.or_eq_true] at hA
      simp only [List.cons_append, precedes, Bool.and_eq_true, Bool.or_eq_true]
      refine ⟨?_, ih hA.2⟩
      rcases hA.1 with h | h
      · exact Or.inl h
      · refine Or.inr ?_
        simp only [List.append_eq, List.all_append, Bool.and_eq_true]
        exact ⟨h, hB⟩

/-- The basic split: if the first part has no `q`-event and the second no
`p`-event, every `p`-event precedes every `q`-event. -/
theorem precedes_of_split (p q : Ev → Bool) (A B : List Ev)
    (hA : A.all (fun e => !(q e)) = true)
    (hB : B.all (fun e => !(p e)) = true) :
    precedes p q (A ++ B) = true :=
  precedes_append_left p q A B hA (precedes_of_no_p p q B hB)

/- Generic list facts restated over traces. -/

/-- A trace whose events all fail `p` contains no `p`-event. -/
theorem any_eq_false_of_all_not (p : Ev → Bool) (l : List Ev)
    (h : l.all (fun e => !(p e)) = true) : l.any p = false := by
  induction l with
  | nil => rfl
  | cons e rest ih =>
      rw [List.all_cons, Bool.and_eq_true] at h
      have h1 : p e = false := by simpa using h.1
      rw [List.any_cons, h1, ih h.2]
      rfl

/-- A trace whose events all fail `p` filters to the empty trace. -/
theorem filter_eq_nil_of_all_not (p : Ev → Bool) (l : List Ev)
    (h : l.all (fun e => !(p e)) = true) : l.filter p = [] := by
  induction l with
  | nil => rfl
  | cons e rest ih =>
      rw [List.all_cons, Bool.and_eq_true] at h
      have h1 : p e = false := by simpa using h.1
      simp [List.filter_cons, h1, ih h.2]

/-- A trace with no write to the caller style contributes no caller
entries. -/
theorem callerWriteEntries_eq_nil (l : List Ev)
    (h : l.all (fun e => !(writesCallerStyle e)) = true) :
    callerWriteEntries l = [] := by
  induction l with
  | nil => rfl
  | cons e rest ih =>
      rw [List.all_cons, Bool.and_eq_true] at h
      have he : callerEntry e = none := by
        cases hc : callerEntry e with
        | none => rfl
        | some x =>
            exfalso
            have h1 := h.1
            rw [show writesCallerStyle e = (callerEntry e).isSome from rfl,
               hc] at h1
            simp at h1
      show List.filterMap callerEntry (e :: rest) = []
      rw [List.filterMap_cons, he]
      exact ih h.2

/-- Counting an event that the trace never contains gives zero. -/
theorem count_eq_zero_of_all_not (a : Ev) (l : List Ev)
    (h : l.all (fun e => !(e == a)) = true) : l.count a = 0 := by
  induction l with
  | nil => rfl
  | cons e rest ih =>
      rw [List.all_cons, Bool.and_eq_true] at h
      have h1 : ¬(e = a) := by simpa using h.1
      simp [List.count_cons, h1, Ne.symm h1, ih h.2]

/- Phase vocabulary: which events each phase of `draw` can emit. -/

/-- Control-flag overrides only write stylesheet items. -/
theorem controlEvents_no (key : String) (o : Option Bool) (q : Ev → Bool)
    (h : ∀ t k v, q (Ev.styleSetItem t k v) = false) :
    (controlEvents key o).all (fun e => !(q e)) = true := by
  cases o with
  | none => rfl
  | some b => simp [controlEvents, h]

/-- The style phase emits only style events. -/
theorem stylePhase_no (args : DrawArgs) (q : Ev → Bool)
    (h1 : q Ev.styleCreate = false) (h2 : q Ev.styleUpdateCall = false)
    (h3 : ∀ t k v, q (Ev.styleSetItem t k v) = false) :
    (stylePhaseTrace args).all (fun e => !(q e)) = true := by
  simp only [stylePhaseTrace, List.append_assoc, List.cons_append,
    List.nil_append, List.all_cons, List.all_append, Bool.and_eq_true]
  refine ⟨by simp [h1], by simp [h2], ?_, ?_, ?_, ?_⟩
  · exact controlEvents_no _ _ q h3
  · exact controlEvents_no _ _ q h3
  · exact controlEvents_no _ _ q h3
  · exact controlEvents_no _ _ q h3

/-- The time-range piece emits only `set_time_range` events. -/
theorem timeRangeTrace_no (o : Option (Int × Int)) (q : Ev → Bool)
    (h : ∀ t0 t1, q (Ev.setTimeRangeCall t0 t1) = false) :
    (timeRangeTrace o).all (fun e => !(q e)) = true := by
  cases o with
  | none => rfl
  | some tt =>
      obtain ⟨t0, t1⟩ := tt
      simp [timeRangeTrace, h]

/-- The disabled-bits piece emits only `set_disable_bits` events. -/
theorem disableBitsTrace_no (bits : List Bits) (q : Ev → Bool)
    (h : ∀ b, q (Ev.setDisableBitsCall b) = false) :
    (disableBitsTrace bits).all (fun e => !(q e)) = true := by
  unfold disableBitsTrace
  by_cases hb : bits.isEmpty
  · rw [if_pos hb]
    rfl
  · rw [if_neg hb]
    rw [List.all_eq_true]
    intro e he
    rw [List.mem_map] at he
    obtain ⟨b, hb2, rfl⟩ := he
    simp [h]

/-- The labels piece emits only `set_disable_type` events. -/
theorem labelsTrace_no (sl : Bool) (q : Ev → Bool)
    (h : ∀ t, q (Ev.setDisableTypeCall t) = false) :
    (labelsTrace sl).all (fun e => !(q e)) = true := by
  cases sl with
  | true => rfl
  | false => simp [labelsTrace, labelTypes, h]

/-- The save phase emits only `save_file` events. -/
theorem savePhase_no (f : Option String) (q : Ev → Bool)
    (h : ∀ s, q (Ev.saveFileCall s) = false) :
    (savePhase f).all (fun e => !(q e)) = true := by
  cases f with
  | none => rfl
  | some s =>
      simp only [savePhase]
      by_cases hs : s.isEmpty
      · rw [if_pos hs]
        rfl
      · rw [if_neg hs]
        simp [h]

/-- The canvas phase emits only canvas events. -/
theorem configTrace_no (args : DrawArgs) (q : Ev → Bool)
    (h1 : q Ev.canvasCreate = false) (h2 : q Ev.loadProgramCall = false)
    (h3 : ∀ t0 t1, q (Ev.setTimeRangeCall t0 t1) = false)
    (h4 : ∀ b, q (Ev.setDisableBitsCall b) = false)
    (h5 : ∀ t, q (Ev.setDisableTypeCall t) = false)
    (h6 : q Ev.updateCall = false) :
    (configTrace args).all (fun e => !(q e)) = true := by
  simp only [configTrace, List.append_assoc, List.cons_append,
    List.nil_append, List.all_cons, List.all_append, Bool.and_eq_true]
  refine ⟨by simp [h1], by simp [h2], ?_, ?_, ?_, by simp [h6]⟩
  · exact timeRangeTrace_no _ q h3
  · exact disableBitsTrace_no _ q h4
  · exact labelsTrace_no _ q h5

/- Shapes of the three possible `draw` outcomes. -/

/-- A successful call: known plotter, dependency available. -/
theorem draw_shape_success (args : DrawArgs)
    (hp : args.plotter = Plotter.MPL) :
    draw args true =
      ⟨stylePhaseTrace args ++ configTrace args
         ++ [Ev.plotterCreate, Ev.plotterDrawCall]
         ++ savePhase args.filename ++ [Ev.getImageCall], none,
       (configuredCanvas args).update⟩ := by
  simp [draw, hp]

/-- An unknown plotter name: `VisualizationError` after the canvas phase. -/
theorem draw_shape_unknown (args : DrawArgs) (mpl : Bool)
    (hp : ¬(args.plotter = Plotter.MPL)) :
    draw args mpl =
      ⟨stylePhaseTrace args ++ configTrace args ++ [Ev.errorRaised],
       some (DrawError.visualizationError
         ("Plotter API " ++ args.plotter ++ " is not supported.")),
       (configuredCanvas args).update⟩ := by
  simp [draw, hp]

/-- A known plotter with the Matplotlib dependency missing: `ImportError`
after the canvas phase. -/
theorem draw_shape_noMpl (args : DrawArgs)
    (hp : args.plotter = Plotter.MPL) :
    draw args false =
      ⟨stylePhaseTrace args ++ configTrace args ++ [Ev.errorRaised],
       some (DrawError.importError "Must have Matplotlib installed."),
       (configuredCanvas args).update⟩ := by
  simp [draw, hp]

/-- A run that raised no error selected the registered plotter with the
dependency available. -/
theorem draw_error_none (args : DrawArgs) (mpl : Bool)
    (h : (draw args mpl).error = none) :
    args.plotter = Plotter.MPL ∧ mpl = true := by
  by_cases hp : args.plotter = Plotter.MPL
  · cases mpl with
    | false =>
        rw [draw_shape_noMpl args hp] at h
        simp at h
    | true => exact ⟨hp, rfl⟩
  · rw [draw_shape_unknown args mpl hp] at h
    simp at h

/- Canvas-state facts about the configuration pipeline. -/

/-- Disabling bits never touches the disabled-type set. -/
theorem foldBits_disabledTypes (bits : List Bits) (c : DrawerCanvas) :
    (bits.foldl (fun acc b => acc.set_disable_bits b true) c).disabledTypes
      = c.disabledTypes := by
  induction bits generalizing c with
  | nil => rfl
  | cons b rest ih =>
      rw [List.foldl_cons, ih]
      simp [DrawerCanvas.set_disable_bits]

/-- Disabling bits never touches the stylesheet. -/
theorem foldBits_stylesheet (bits : List Bits) (c : DrawerCanvas) :
    (bits.foldl (fun acc b => acc.set_disable_bits b true) c).stylesheet
      = c.stylesheet := by
  induction bits generalizing c with
  | nil => rfl
  | cons b rest ih =>
      rw [List.foldl_cons, ih]
      simp [DrawerCanvas.set_disable_bits]

/-- Before the labels step no semantic tag has been disabled. -/
theorem canvasAfterBits_disabledTypes (args : DrawArgs) :
    (canvasAfterBits args).disabledTypes = [] := by
  unfold canvasAfterBits
  have hTR : (canvasAfterTimeRange args).disabledTypes = [] := by
    unfold canvasAfterTimeRange
    cases args.timeRange with
    | none => rfl
    | some tt =>
        obtain ⟨t0, t1⟩ := tt
        rfl
  by_cases hb : args.disableBits.isEmpty
  · rw [if_pos hb]
    exact hTR
  · rw [if_neg hb, foldBits_disabledTypes]
    exact hTR

/-- The configured canvas carries the resolved per-call style unchanged. -/
theorem canvasAfterBits_stylesheet (args : DrawArgs) :
    (canvasAfterBits args).stylesheet = resolvedOf args := by
  unfold canvasAfterBits
  have hTR : (canvasAfterTimeRange args).stylesheet = resolvedOf args := by
    unfold canvasAfterTimeRange
    cases args.timeRange with
    | none => rfl
    | some tt =>
        obtain ⟨t0, t1⟩ := tt
        rfl
  by_cases hb : args.disableBits.isEmpty
  · rw [if_pos hb]
    exact hTR
  · rw [if_neg hb, foldBits_stylesheet]
    exact hTR

/-- The disabled semantic tags of the configured canvas: none with
`show_labels=True`, exactly the three label tags otherwise. -/
theorem configuredCanvas_disabledTypes (args : DrawArgs) :
    (configuredCanvas args).disabledTypes
      = (if args.showLabels then [] else labelTypes) := by
  unfold configuredCanvas
  cases hsl : args.showLabels with
  | true =>
      simp [canvasAfterBits_disabledTypes args]
  | false =>
      simp [labelTypes, DrawerCanvas.set_disable_type,
        canvasAfterBits_disabledTypes args]

/-- The configured canvas keeps the resolved style through every setter. -/
theorem configuredCanvas_stylesheet (args : DrawArgs) :
    (configuredCanvas args).stylesheet = resolvedOf args := by
  unfold configuredCanvas
  cases hsl : args.showLabels with
  | true =>
      simp [canvasAfterBits_stylesheet args]
  | false =>
      simp [labelTypes, DrawerCanvas.set_disable_type,
        canvasAfterBits_stylesheet args]

/-- Conjunction rule for `List.all` over an append. -/
theorem all_append2 {p : Ev → Bool} {A B : List Ev}
    (hA : A.all p = true) (hB : B.all p = true) : (A ++ B).all p = true := by
  rw [List.all_append, Bool.and_eq_true]
  exact ⟨hA, hB⟩

/-- The save phase contains a `save_file` event exactly when the filename is
truthy. -/
theorem savePhase_any_save (f : Option String) :
    (savePhase f).any isSaveEv = filenameTruthy f := by
  cases f with
  | none => rfl
  | some s =>
      simp only [savePhase, filenameTruthy]
      by_cases hs : s.isEmpty
      · rw [if_pos hs, hs]
        rfl
      · rw [if_neg hs]
        simp only [List.any_cons, List.any_nil, isSaveEv, Bool.or_false]
        cases he : s.isEmpty with
        | true => exact absurd he hs
        | false => rfl

/-- The style and canvas phases carry no `error` event. -/
theorem preTrace_no_error (args : DrawArgs) :
    (stylePhaseTrace args ++ configTrace args).all
      (fun e => !(isErrorEv e)) = true :=
  all_append2
    (stylePhase_no args isErrorEv rfl rfl (fun _ _ _ => rfl))
    (configTrace_no args isErrorEv rfl rfl (fun _ _ => rfl) (fun _ => rfl)
      (fun _ => rfl) rfl)

/- Claim C1. -/

/-- C1, counterexample: for the concrete call `draw(program, plotter="svg2")`
the configuration error is indeed raised, but the trace shows `load_program`
(and the canvas `update()`, i.e. generation work) running before the error is
surfaced — contradicting the claim that the error precedes `load_program`
and that no generation work happens first. -/
theorem C1_counterexample_svg2 :
    (draw exArgsSvg2 true).error
        = some (DrawError.visualizationError
            "Plotter API svg2 is not supported.")
      ∧ (draw exArgsSvg2 true).trace.any isLoadProgramEv = true
      ∧ (draw exArgsSvg2 true).trace.any isUpdateEv = true
      ∧ precedes isLoadProgramEv isErrorEv (draw exArgsSvg2 true).trace
          = true := by
  decide

/-- C1, amended: for every program and every plotter name that is not the
registered renderer name, `draw` raises the configuration error, but only
after `load_program` and the canvas `update()` (the generation work) have
run; the error is still surfaced before any plotter is constructed or
invoked, before any save, and before any artifact is returned. -/
theorem C1_unknown_plotter_error_after_load (args : DrawArgs) (mpl : Bool)
    (hp : args.plotter ≠ Plotter.MPL) :
    (draw args mpl).error
        = some (DrawError.visualizationError
            ("Plotter API " ++ args.plotter ++ " is not supported."))
      ∧ (draw args mpl).trace.any isLoadProgramEv = true
      ∧ (draw args mpl).trace.any isUpdateEv = true
      ∧ precedes isLoadProgramEv isErrorEv (draw args mpl).trace = true
      ∧ precedes isUpdateEv isErrorEv (draw args mpl).trace = true
      ∧ (draw args mpl).trace.any isPlotterEv = false
      ∧ (draw args mpl).trace.any isSaveEv = false
      ∧ (draw args mpl).trace.any isGetImageEv = false := by
  rw [draw_shape_unknown args mpl hp]
  refine ⟨rfl, ?_, ?_, ?_, ?_, ?_, ?_, ?_⟩
  · simp [List.any_append, configTrace, isLoadProgramEv]
  · simp [List.any_append, configTrace, isUpdateEv]
  · exact precedes_of_split _ _ _ _ (preTrace_no_error args) (by decide)
  · exact precedes_of_split _ _ _ _ (preTrace_no_error args) (by decide)
  · apply any_eq_false_of_all_not
    exact all_append2
      (all_append2
        (stylePhase_no args isPlotterEv rfl rfl (fun _ _ _ => rfl))
        (configTrace_no args isPlotterEv rfl rfl (fun _ _ => rfl)
          (fun _ => rfl) (fun _ => rfl) rfl))
      (by decide)
  · apply any_eq_false_of_all_not
    exact all_append2
      (all_append2
        (stylePhase_no args isSaveEv rfl rfl (fun _ _ _ => rfl))
        (configTrace_no args isSaveEv rfl rfl (fun _ _ => rfl)
          (fun _ => rfl) (fun _ => rfl) rfl))
      (by decide)
  · apply any_eq_false_of_all_not
    exact all_append2
      (all_append2
        (stylePhase_no args isGetImageEv rfl rfl (fun _ _ _ => rfl))
        (configTrace_no args isGetImageEv rfl rfl (fun _ _ => rfl)
          (fun _ => rfl) (fun _ => rfl) rfl))
      (by decide)

/-- C1, witness: the amended theorem applied to the concrete `svg2` call. -/
theorem C1_witness :
    exArgsSvg2.plotter ≠ Plotter.MPL
      ∧ ((draw exArgsSvg2 true).error
          = some (DrawError.visualizationError
              ("Plotter API " ++ exArgsSvg2.plotter ++ " is not supported."))
        ∧ (draw exArgsSvg2 true).trace.any isLoadProgramEv = true
        ∧ (draw exArgsSvg2 true).trace.any isUpdateEv = true
        ∧ precedes isLoadProgramEv isErrorEv (draw exArgsSvg2 true).trace = true
        ∧ precedes isUpdateEv isErrorEv (draw exArgsSvg2 true).trace = true
        ∧ (draw exArgsSvg2 true).trace.any isPlotterEv = false
        ∧ (draw exArgsSvg2 true).trace.any isSaveEv = false
        ∧ (draw exArgsSvg2 true).trace.any isGetImageEv = false) :=
  ⟨by decide, C1_unknown_plotter_error_after_load exArgsSvg2 true (by decide)⟩

/- Claim C4. -/

/-- C4: the plotter name is validated by exact string match against the one
registered renderer name `mpl`: any other name makes `draw` raise
`VisualizationError` and return no artifact (`get_image` never runs), while
the registered name with its dependency available raises no error. -/
theorem C4_plotter_name_validation (args : DrawArgs) (mpl : Bool) :
    (args.plotter ≠ Plotter.MPL →
        (draw args mpl).error
            = some (DrawError.visualizationError
                ("Plotter API " ++ args.plotter ++ " is not supported."))
          ∧ (draw args mpl).trace.any isGetImageEv = false)
      ∧ (args.plotter = Plotter.MPL → (draw args true).error = none) := by
  constructor
  · intro hp
    rw [draw_shape_unknown args mpl hp]
    refine ⟨rfl, ?_⟩
    apply any_eq_false_of_all_not
    exact all_append2
      (all_append2
        (stylePhase_no args isGetImageEv rfl rfl (fun _ _ _ => rfl))
        (configTrace_no args isGetImageEv rfl rfl (fun _ _ => rfl)
          (fun _ => rfl) (fun _ => rfl) rfl))
      (by decide)
  · intro hp
    rw [draw_shape_success args hp]

/-- C4, witness: the validation at the concrete calls `plotter="svg2"` and
`plotter="mpl"`. -/
theorem C4_witness :
    exArgsSvg2.plotter ≠ Plotter.MPL
      ∧ (draw exArgsSvg2 true).error
          = some (DrawError.visualizationError
              ("Plotter API " ++ exArgsSvg2.plotter ++ " is not supported."))
      ∧ exArgsBase.plotter = Plotter.MPL
      ∧ (draw exArgsBase true).error = none :=
  ⟨by decide,
   ((C4_plotter_name_validation exArgsSvg2 true).1 (by decide)).1,
   rfl,
   (C4_plotter_name_validation exArgsBase true).2 rfl⟩

/- Claim C6. -/

/-- C6: a valid renderer name whose backing Matplotlib dependency cannot be
imported makes `draw` raise an `ImportError` — a kind distinct from the
`VisualizationError` used for unknown names — whose message names the
missing Matplotlib dependency. -/
theorem C6_missing_dependency_error (args : DrawArgs)
    (hp : args.plotter = Plotter.MPL) :
    (draw args false).error
        = some (DrawError.importError "Must have Matplotlib installed.")
      ∧ namesMatplotlib "Must have Matplotlib installed." = true
      ∧ (∀ m m2, DrawError.importError m ≠ DrawError.visualizationError m2) := by
  refine ⟨?_, by decide, ?_⟩
  · rw [draw_shape_noMpl args hp]
  · intro m m2 h
    exact DrawError.noConfusion h

/-- C6, witness: the missing-dependency error at the concrete default call. -/
theorem C6_witness :
    exArgsBase.plotter = Plotter.MPL
      ∧ (draw exArgsBase false).error
          = some (DrawError.importError "Must have Matplotlib installed.")
      ∧ namesMatplotlib "Must have Matplotlib installed." = true :=
  ⟨rfl, (C6_missing_dependency_error exArgsBase rfl).1,
   (C6_missing_dependency_error exArgsBase rfl).2.1⟩

/- Claim C5. -/

/-- C5: `save_file` runs exactly when an output filename was supplied (Python
truthiness: a non-`None`, nonempty name) and the render succeeded; it runs
after the `plotter.draw()` render and before the artifact is returned via
`get_image`.  With no filename, `save_file` is never called. -/
theorem C5_save_iff_filename (args : DrawArgs) (mpl : Bool) :
    ((draw args mpl).trace.any isSaveEv
        = (filenameTruthy args.filename && (draw args mpl).error.isNone))
      ∧ precedes isPlotterDrawEv isSaveEv (draw args mpl).trace = true
      ∧ precedes isSaveEv isGetImageEv (draw args mpl).trace = true := by
  have hS : (stylePhaseTrace args).any isSaveEv = false :=
    any_eq_false_of_all_not _ _
      (stylePhase_no args isSaveEv rfl rfl (fun _ _ _ => rfl))
  have hC : (configTrace args).any isSaveEv = false :=
    any_eq_false_of_all_not _ _
      (configTrace_no args isSaveEv rfl rfl (fun _ _ => rfl) (fun _ => rfl)
        (fun _ => rfl) rfl)
  have hPreNoSave : (stylePhaseTrace args ++ configTrace args).all
      (fun e => !(isSaveEv e)) = true :=
    all_append2
      (stylePhase_no args isSaveEv rfl rfl (fun _ _ _ => rfl))
      (configTrace_no args isSaveEv rfl rfl (fun _ _ => rfl) (fun _ => rfl)
        (fun _ => rfl) rfl)
  by_cases hp : args.plotter = Plotter.MPL
  · cases mpl with
    | true =>
        rw [draw_shape_success args hp]
        refine ⟨?_, ?_, ?_⟩
        · simp [List.any_append, hS, hC, savePhase_any_save, isSaveEv]
        · apply precedes_append_right _ _ _ _ (by decide)
          apply precedes_of_split _ _ _ _
            (all_append2 hPreNoSave (by decide))
            (savePhase_no args.filename isPlotterDrawEv (fun _ => rfl))
        · apply precedes_of_split _ _ _ _ ?_ (by decide)
          exact all_append2
            (all_append2
              (all_append2
                (stylePhase_no args isGetImageEv rfl rfl (fun _ _ _ => rfl))
                (configTrace_no args isGetImageEv rfl rfl (fun _ _ => rfl)
                  (fun _ => rfl) (fun _ => rfl) rfl))
              (by decide))
            (savePhase_no args.filename isGetImageEv (fun _ => rfl))
    | false =>
        rw [draw_shape_noMpl args hp]
        refine ⟨?_, ?_, ?_⟩
        · simp [List.any_append, hS, hC, isSaveEv]
        · exact precedes_of_no_q _ _ _
            (all_append2 hPreNoSave (by decide))
        · exact precedes_of_no_p _ _ _
            (all_append2 hPreNoSave (by decide))
  · rw [draw_shape_unknown args mpl hp]
    refine ⟨?_, ?_, ?_⟩
    · simp [List.any_append, hS, hC, isSaveEv]
    · exact precedes_of_no_q _ _ _
        (all_append2 hPreNoSave (by decide))
    · exact precedes_of_no_p _ _ _
        (all_append2 hPreNoSave (by decide))

/- Claim C7. -/

/-- The canvas phase before its final `update()` contains no `update`
event. -/
theorem configPrefix_no_update (args : DrawArgs) :
    ((([Ev.canvasCreate, Ev.loadProgramCall] ++ timeRangeTrace args.timeRange)
        ++ disableBitsTrace args.disableBits)
      ++ labelsTrace args.showLabels).all (fun e => !(isUpdateEv e)) = true :=
  all_append2
    (all_append2
      (all_append2 (by decide) (timeRangeTrace_no _ _ (fun _ _ => rfl)))
      (disableBitsTrace_no _ _ (fun _ => rfl)))
    (labelsTrace_no _ _ (fun _ => rfl))

/-- C7: on every successful call the pipeline steps happen in order: style
resolution (with its overrides) strictly precedes canvas creation, which
precedes `load_program`, which precedes every configuration setter; all
setters precede `update()`, which is invoked at least once and precedes the
renderer invocation; the renderer precedes any save, and any save precedes
the final `get_image`. -/
theorem C7_pipeline_order (args : DrawArgs) (mpl : Bool)
    (h : (draw args mpl).error = none) :
    precedes isStyleEv isCanvasCreateEv (draw args mpl).trace = true
      ∧ precedes isCanvasCreateEv isLoadProgramEv (draw args mpl).trace = true
      ∧ precedes isLoadProgramEv isSetterEv (draw args mpl).trace = true
      ∧ precedes isSetterEv isUpdateEv (draw args mpl).trace = true
      ∧ (draw args mpl).trace.any isUpdateEv = true
      ∧ precedes isUpdateEv isPlotterEv (draw args mpl).trace = true
      ∧ precedes isPlotterEv isSaveEv (draw args mpl).trace = true
      ∧ precedes isSaveEv isGetImageEv (draw args mpl).trace = true := by
  obtain ⟨hp, hm⟩ := draw_error_none args mpl h
  subst hm
  rw [draw_shape_success args hp]
  have hS_noStyle : ∀ q : Ev → Bool, q Ev.styleCreate = false →
      q Ev.styleUpdateCall = false →
      (∀ t k v, q (Ev.styleSetItem t k v) = false) →
      (stylePhaseTrace args).all (fun e => !(q e)) = true :=
    fun q h1 h2 h3 => stylePhase_no args q h1 h2 h3
  have hC_noStyle : (configTrace args).all (fun e => !(isStyleEv e)) = true :=
    configTrace_no args isStyleEv rfl rfl (fun _ _ => rfl) (fun _ => rfl)
      (fun _ => rfl) rfl
  refine ⟨?_, ?_, ?_, ?_, ?_, ?_, ?_, ?_⟩
  · -- style events before canvas creation
    apply precedes_append_right _ _ _ _ (by decide)
    apply precedes_append_right _ _ _ _
      (savePhase_no args.filename isStyleEv (fun _ => rfl))
    apply precedes_append_right _ _ _ _ (by decide)
    exact precedes_of_split _ _ _ _
      (hS_noStyle isCanvasCreateEv rfl rfl (fun _ _ _ => rfl)) hC_noStyle
  · -- canvas creation before load_program
    apply precedes_append_right _ _ _ _ (by decide)
    apply precedes_append_right _ _ _ _
      (savePhase_no args.filename isCanvasCreateEv (fun _ => rfl))
    apply precedes_append_right _ _ _ _ (by decide)
    apply precedes_append_left _ _ _ _
      (hS_noStyle isLoadProgramEv rfl rfl (fun _ _ _ => rfl))
    simp only [configTrace]
    apply precedes_append_right _ _ _ _ (by decide)
    apply precedes_append_right _ _ _ _
      (labelsTrace_no _ _ (fun _ => rfl))
    apply precedes_append_right _ _ _ _
      (disableBitsTrace_no _ _ (fun _ => rfl))
    apply precedes_append_right _ _ _ _
      (timeRangeTrace_no _ _ (fun _ _ => rfl))
    decide
  · -- load_program before the setters
    apply precedes_append_right _ _ _ _ (by decide)
    apply precedes_append_right _ _ _ _
      (savePhase_no args.filename isLoadProgramEv (fun _ => rfl))
    apply precedes_append_right _ _ _ _ (by decide)
    apply precedes_append_left _ _ _ _
      (hS_noStyle isSetterEv rfl rfl (fun _ _ _ => rfl))
    simp only [configTrace]
    apply precedes_append_right _ _ _ _ (by decide)
    apply precedes_append_right _ _ _ _
      (labelsTrace_no _ _ (fun _ => rfl))
    apply precedes_append_right _ _ _ _
      (disableBitsTrace_no _ _ (fun _ => rfl))
    apply precedes_append_right _ _ _ _
      (timeRangeTrace_no _ _ (fun _ _ => rfl))
    decide
  · -- all setters before update()
    apply precedes_append_right _ _ _ _ (by decide)
    apply precedes_append_right _ _ _ _
      (savePhase_no args.filename isSetterEv (fun _ => rfl))
    apply precedes_append_right _ _ _ _ (by decide)
    apply precedes_append_left _ _ _ _
      (hS_noStyle isUpdateEv rfl rfl (fun _ _ _ => rfl))
    simp only [configTrace]
    exact precedes_of_split _ _ _ _ (configPrefix_no_update args) (by decide)
  · -- update() runs at least once
    simp [List.any_append, configTrace, isUpdateEv]
  · -- update() before the renderer invocation
    apply precedes_append_right _ _ _ _ (by decide)
    apply precedes_append_right _ _ _ _
      (savePhase_no args.filename isUpdateEv (fun _ => rfl))
    apply precedes_of_split _ _ _ _ ?_ (by decide)
    exact all_append2
      (hS_noStyle isPlotterEv rfl rfl (fun _ _ _ => rfl))
      (configTrace_no args isPlotterEv rfl rfl (fun _ _ => rfl)
        (fun _ => rfl) (fun _ => rfl) rfl)
  · -- the renderer before any save
    apply precedes_append_right _ _ _ _ (by decide)
    apply precedes_of_split _ _ _ _ ?_
      (savePhase_no args.filename isPlotterEv (fun _ => rfl))
    exact all_append2
      (all_append2
        (hS_noStyle isSaveEv rfl rfl (fun _ _ _ => rfl))
        (configTrace_no args isSaveEv rfl rfl (fun _ _ => rfl)
          (fun _ => rfl) (fun _ => rfl) rfl))
      (by decide)
  · -- any save before get_image
    apply precedes_of_split _ _ _ _ ?_ (by decide)
    exact all_append2
      (all_append2
        (all_append2
          (hS_noStyle isGetImageEv rfl rfl (fun _ _ _ => rfl))
          (configTrace_no args isGetImageEv rfl rfl (fun _ _ => rfl)
            (fun _ => rfl) (fun _ => rfl) rfl))
        (by decide))
      (savePhase_no args.filename isGetImageEv (fun _ => rfl))

/-- C7, witness: the pipeline order at the concrete default call, whose
error is `none`. -/
theorem C7_witness :
    (draw exArgsBase true).error = none
      ∧ (precedes isStyleEv isCanvasCreateEv (draw exArgsBase true).trace = true
        ∧ precedes isCanvasCreateEv isLoadProgramEv
            (draw exArgsBase true).trace = true
        ∧ precedes isLoadProgramEv isSetterEv (draw exArgsBase true).trace = true
        ∧ precedes isSetterEv isUpdateEv (draw exArgsBase true).trace = true
        ∧ (draw exArgsBase true).trace.any isUpdateEv = true
        ∧ precedes isUpdateEv isPlotterEv (draw exArgsBase true).trace = true
        ∧ precedes isPlotterEv isSaveEv (draw exArgsBase true).trace = true
        ∧ precedes isSaveEv isGetImageEv (draw exArgsBase true).trace = true) :=
  ⟨by decide, C7_pipeline_order exArgsBase true (by decide)⟩

/- Claim C2. -/

/-- The labels piece consists solely of `set_disable_type` events. -/
theorem labelsTrace_filter (sl : Bool) :
    (labelsTrace sl).filter isDisableTypeEv = labelsTrace sl := by
  cases sl with
  | true => rfl
  | false => decide

/-- C2: `show_labels=False` disables exactly the three label semantic tags
(delay label, gate-parameter label, gate-name label) on the canvas, the only
`set_disable_type` calls of the whole run are those three and they happen
before `update()`; with `show_labels=True` no tag is disabled and no
`set_disable_type` call happens at all. -/
theorem C2_show_labels_disables_exactly_three (args : DrawArgs) (mpl : Bool) :
    ((configuredCanvas args).disabledTypes
        = (if args.showLabels then [] else labelTypes))
      ∧ ((draw args mpl).trace.filter isDisableTypeEv
        = (if args.showLabels then []
           else labelTypes.map Ev.setDisableTypeCall))
      ∧ precedes isDisableTypeEv isUpdateEv (draw args mpl).trace = true := by
  have hfS : (stylePhaseTrace args).filter isDisableTypeEv = [] :=
    filter_eq_nil_of_all_not _ _
      (stylePhase_no args isDisableTypeEv rfl rfl (fun _ _ _ => rfl))
  have hfC : (configTrace args).filter isDisableTypeEv
      = labelsTrace args.showLabels := by
    simp only [configTrace, List.filter_append]
    rw [filter_eq_nil_of_all_not _ _
          (timeRangeTrace_no args.timeRange _ (fun _ _ => rfl)),
        filter_eq_nil_of_all_not _ _
          (disableBitsTrace_no args.disableBits _ (fun _ => rfl)),
        labelsTrace_filter args.showLabels]
    simp [isDisableTypeEv]
  have hPrec : precedes isDisableTypeEv isUpdateEv (draw args mpl).trace
      = true := by
    have hCore : precedes isDisableTypeEv isUpdateEv
        (stylePhaseTrace args ++ configTrace args) = true := by
      apply precedes_append_left _ _ _ _
        (stylePhase_no args isUpdateEv rfl rfl (fun _ _ _ => rfl))
      simp only [configTrace]
      exact precedes_of_split _ _ _ _ (configPrefix_no_update args) (by decide)
    by_cases hp : args.plotter = Plotter.MPL
    · cases mpl with
      | true =>
          rw [draw_shape_success args hp]
          apply precedes_append_right _ _ _ _ (by decide)
          apply precedes_append_right _ _ _ _
            (savePhase_no args.filename isDisableTypeEv (fun _ => rfl))
          apply precedes_append_right _ _ _ _ (by decide)
          exact hCore
      | false =>
          rw [draw_shape_noMpl args hp]
          apply precedes_append_right _ _ _ _ (by decide)
          exact hCore
    · rw [draw_shape_unknown args mpl hp]
      apply precedes_append_right _ _ _ _ (by decide)
      exact hCore
  have hFilter : (draw args mpl).trace.filter isDisableTypeEv
      = (if args.showLabels then []
         else labelTypes.map Ev.setDisableTypeCall) := by
    by_cases hp : args.plotter = Plotter.MPL
    · cases mpl with
      | true =>
          rw [draw_shape_success args hp]
          simp only [List.filter_append]
          rw [hfS, hfC,
            filter_eq_nil_of_all_not _ _
              (savePhase_no args.filename isDisableTypeEv (fun _ => rfl))]
          simp [labelsTrace, isDisableTypeEv]
      | false =>
          rw [draw_shape_noMpl args hp]
          simp only [List.filter_append]
          rw [hfS, hfC]
          simp [labelsTrace, isDisableTypeEv]
    · rw [draw_shape_unknown args mpl hp]
      simp only [List.filter_append]
      rw [hfS, hfC]
      simp [labelsTrace, isDisableTypeEv]
  exact ⟨configuredCanvas_disabledTypes args, hFilter, hPrec⟩

/- Claim C3. -/

/-- C3: each of the four per-call visibility flags, when not `None`, replaces
the corresponding `formatter.control.*` entry of the resolved per-call style
with exactly the supplied boolean (whatever the style's own value was), and
when `None` leaves the entry at the value resolved from the style input; the
canvas is created over that resolved style and all stylesheet writes precede
the canvas creation. -/
theorem C3_control_flag_overrides (args : DrawArgs) (mpl : Bool) :
    (∀ b, args.showIdle = some b →
        styleGet (resolvedOf args) "formatter.control.show_idle"
          = some (StyleVal.bool b))
      ∧ (args.showIdle = none →
        styleGet (resolvedOf args) "formatter.control.show_idle"
          = styleGet (baseStyleOf args) "formatter.control.show_idle")
      ∧ (∀ b, args.showClbits = some b →
        styleGet (resolvedOf args) "formatter.control.show_clbits"
          = some (StyleVal.bool b))
      ∧ (args.showClbits = none →
        styleGet (resolvedOf args) "formatter.control.show_clbits"
          = styleGet (baseStyleOf args) "formatter.control.show_clbits")
      ∧ (∀ b, args.showBarriers = some b →
        styleGet (resolvedOf args) "formatter.control.show_barriers"
          = some (StyleVal.bool b))
      ∧ (args.showBarriers = none →
        styleGet (resolvedOf args) "formatter.control.show_barriers"
          = styleGet (baseStyleOf args) "formatter.control.show_barriers")
      ∧ (∀ b, args.showDelays = some b →
        styleGet (resolvedOf args) "formatter.control.show_delays"
          = some (StyleVal.bool b))
      ∧ (args.showDelays = none →
        styleGet (resolvedOf args) "formatter.control.show_delays"
          = styleGet (baseStyleOf args) "formatter.control.show_delays")
      ∧ (configuredCanvas args).stylesheet = resolvedOf args
      ∧ precedes isStyleSetItemEv isCanvasCreateEv (draw args mpl).trace
          = true := by
  refine ⟨?_, ?_, ?_, ?_, ?_, ?_, ?_, ?_, configuredCanvas_stylesheet args, ?_⟩
  · intro b hb
    simp only [resolvedOf, resolveStyle]
    rw [styleGet_applyControl_ne _ _ _ _ (by decide),
        styleGet_applyControl_ne _ _ _ _ (by decide),
        styleGet_applyControl_ne _ _ _ _ (by decide), hb]
    exact styleGet_applyControl_some _ _ b
  · intro h0
    simp only [resolvedOf, resolveStyle, baseStyleOf]
    rw [styleGet_applyControl_ne _ _ _ _ (by decide),
        styleGet_applyControl_ne _ _ _ _ (by decide),
        styleGet_applyControl_ne _ _ _ _ (by decide), h0, applyControl_none]
  · intro b hb
    simp only [resolvedOf, resolveStyle]
    rw [styleGet_applyControl_ne _ _ _ _ (by decide),
        styleGet_applyControl_ne _ _ _ _ (by decide), hb]
    exact styleGet_applyControl_some _ _ b
  · intro h0
    simp only [resolvedOf, resolveStyle, baseStyleOf]
    rw [styleGet_applyControl_ne _ _ _ _ (by decide),
        styleGet_applyControl_ne _ _ _ _ (by decide), h0, applyControl_none]
    exact styleGet_applyControl_ne _ _ _ _ (by decide)
  · intro b hb
    simp only [resolvedOf, resolveStyle]
    rw [styleGet_applyControl_ne _ _ _ _ (by decide), hb]
    exact styleGet_applyControl_some _ _ b
  · intro h0
    simp only [resolvedOf, resolveStyle, baseStyleOf]
    rw [styleGet_applyControl_ne _ _ _ _ (by decide), h0, applyControl_none]
    rw [styleGet_applyControl_ne _ _ _ _ (by decide),
        styleGet_applyControl_ne _ _ _ _ (by decide)]
  · intro b hb
    simp only [resolvedOf, resolveStyle]
    rw [hb]
    exact styleGet_applyControl_some _ _ b
  · intro h0
    simp only [resolvedOf, resolveStyle, baseStyleOf]
    rw [h0, applyControl_none]
    rw [styleGet_applyControl_ne _ _ _ _ (by decide),
        styleGet_applyControl_ne _ _ _ _ (by decide),
        styleGet_applyControl_ne _ _ _ _ (by decide)]
  · have hCore : precedes isStyleSetItemEv isCanvasCreateEv
        (stylePhaseTrace args ++ configTrace args) = true :=
      precedes_of_split _ _ _ _
        (stylePhase_no args isCanvasCreateEv rfl rfl (fun _ _ _ => rfl))
        (configTrace_no args isStyleSetItemEv rfl rfl (fun _ _ => rfl)
          (fun _ => rfl) (fun _ => rfl) rfl)
    by_cases hp : args.plotter = Plotter.MPL
    · cases mpl with
      | true =>
          rw [draw_shape_success args hp]
          apply precedes_append_right _ _ _ _ (by decide)
          apply precedes_append_right _ _ _ _
            (savePhase_no args.filename isStyleSetItemEv (fun _ => rfl))
          apply precedes_append_right _ _ _ _ (by decide)
          exact hCore
      | false =>
          rw [draw_shape_noMpl args hp]
          apply precedes_append_right _ _ _ _ (by decide)
          exact hCore
    · rw [draw_shape_unknown args mpl hp]
      apply precedes_append_right _ _ _ _ (by decide)
      exact hCore

/-- C3, witness: the overrides at a concrete call that passes
`show_idle=False`, `show_barriers=True` and leaves `show_clbits` unset. -/
theorem C3_witness :
    exArgsFlags.showIdle = some false
      ∧ styleGet (resolvedOf exArgsFlags) "formatter.control.show_idle"
          = some (StyleVal.bool false)
      ∧ exArgsFlags.showClbits = none
      ∧ styleGet (resolvedOf exArgsFlags) "formatter.control.show_clbits"
          = styleGet (baseStyleOf exArgsFlags) "formatter.control.show_clbits"
      ∧ exArgsFlags.showBarriers = some true
      ∧ styleGet (resolvedOf exArgsFlags) "formatter.control.show_barriers"
          = some (StyleVal.bool true) :=
  ⟨rfl, (C3_control_flag_overrides exArgsFlags true).1 false rfl,
   rfl, (C3_control_flag_overrides exArgsFlags true).2.2.2.1 rfl,
   rfl, (C3_control_flag_overrides exArgsFlags true).2.2.2.2.1 true rfl⟩

/- Claim C8. -/

/-- Every run of `draw` performs exactly one `temp_style.update` call. -/
theorem count_styleUpdate_draw (args : DrawArgs) (mpl : Bool) :
    (draw args mpl).trace.count Ev.styleUpdateCall = 1 := by
  have hControls : ∀ (key : String) (o : Option Bool),
      (controlEvents key o).count Ev.styleUpdateCall = 0 := by
    intro key o
    apply count_eq_zero_of_all_not
    exact controlEvents_no key o _ (fun _ _ _ => rfl)
  have hS : (stylePhaseTrace args).count Ev.styleUpdateCall = 1 := by
    simp only [stylePhaseTrace, List.count_append, hControls]
    decide
  have hC : (configTrace args).count Ev.styleUpdateCall = 0 := by
    apply count_eq_zero_of_all_not
    exact configTrace_no args _ rfl rfl (fun _ _ => rfl) (fun _ => rfl)
      (fun _ => rfl) rfl
  have hV : (savePhase args.filename).count Ev.styleUpdateCall = 0 := by
    apply count_eq_zero_of_all_not
    exact savePhase_no args.filename _ (fun _ => rfl)
  by_cases hp : args.plotter = Plotter.MPL
  · cases mpl with
    | true =>
        rw [draw_shape_success args hp]
        simp [List.count_append, hS, hC, hV]
    | false =>
        rw [draw_shape_noMpl args hp]
        simp [List.count_append, hS, hC]
  · rw [draw_shape_unknown args mpl hp]
    simp [List.count_append, hS, hC]

/-- C8: a preset stylesheet object and a raw dotted-key mapping holding the
same entries funnel through the same single resolution step: the two runs of
`draw` are identical in every observable (trace, error, canvas), the
resolved styles coincide, and exactly one `update` call on the freshly
created `QiskitTimelineStyle` performs the resolution. -/
theorem C8_preset_dict_same_resolution (args : DrawArgs) (mpl : Bool)
    (entries : List (String × StyleVal)) :
    draw { args with style := some (StyleArg.preset entries) } mpl
        = draw { args with style := some (StyleArg.dict entries) } mpl
      ∧ resolvedOf { args with style := some (StyleArg.preset entries) }
        = resolvedOf { args with style := some (StyleArg.dict entries) }
      ∧ (draw { args with style := some (StyleArg.preset entries) }
          mpl).trace.count Ev.styleUpdateCall = 1 :=
  ⟨rfl, rfl, count_styleUpdate_draw _ mpl⟩

/- Claim C9. -/

/-- C9: omitting the style (`None`) and passing a falsy mapping — an empty
raw dict or an empty preset — are indistinguishable: all resolve their
effective entries from the `IQXStandard` preset and the runs of `draw`
coincide in every observable. -/
theorem C9_falsy_style_uses_IQXStandard (args : DrawArgs) (mpl : Bool) :
    effectiveStyleEntries none = IQXStandardEntries
      ∧ effectiveStyleEntries (some (StyleArg.dict [])) = IQXStandardEntries
      ∧ effectiveStyleEntries (some (StyleArg.preset [])) = IQXStandardEntries
      ∧ draw { args with style := none } mpl
        = draw { args with style := some (StyleArg.dict []) } mpl
      ∧ draw { args with style := none } mpl
        = draw { args with style := some (StyleArg.preset []) } mpl
      ∧ baseStyleOf { args with style := none }
        = styleUpdate defaultStyle IQXStandardEntries :=
  ⟨rfl, rfl, rfl, rfl, rfl, rfl⟩

/- Claim C10. -/

/-- Control-flag overrides write only the per-call `temp_style`. -/
theorem controlEvents_no_caller (key : String) (o : Option Bool) :
    (controlEvents key o).all (fun e => !(writesCallerStyle e)) = true := by
  cases o with
  | none => rfl
  | some b => rfl

/-- The style phase never writes the caller-supplied mapping. -/
theorem stylePhase_no_caller (args : DrawArgs) :
    (stylePhaseTrace args).all (fun e => !(writesCallerStyle e)) = true := by
  simp only [stylePhaseTrace]
  refine all_append2
    (all_append2 (all_append2 (all_append2 (by decide) ?_) ?_) ?_) ?_ <;>
    exact controlEvents_no_caller _ _

/-- C10: `draw` never mutates the caller-supplied style mapping: every
stylesheet write of the run targets the freshly constructed per-call
`temp_style`, no caller-targeted write is recorded, and folding the recorded
caller writes over any initial mapping leaves it exactly as it was. -/
theorem C10_caller_style_unchanged (args : DrawArgs) (mpl : Bool)
    (init : Style) :
    ((draw args mpl).trace.all (fun e => !(writesCallerStyle e)) = true)
      ∧ callerWriteEntries (draw args mpl).trace = []
      ∧ callerStyleAfter init (draw args mpl).trace = init := by
  have hAll : (draw args mpl).trace.all
      (fun e => !(writesCallerStyle e)) = true := by
    have hPre : (stylePhaseTrace args ++ configTrace args).all
        (fun e => !(writesCallerStyle e)) = true :=
      all_append2 (stylePhase_no_caller args)
        (configTrace_no args _ rfl rfl (fun _ _ => rfl) (fun _ => rfl)
          (fun _ => rfl) rfl)
    by_cases hp : args.plotter = Plotter.MPL
    · cases mpl with
      | true =>
          rw [draw_shape_success args hp]
          exact all_append2
            (all_append2 (all_append2 hPre (by decide))
              (savePhase_no args.filename _ (fun _ => rfl)))
            (by decide)
      | false =>
          rw [draw_shape_noMpl args hp]
          exact all_append2 hPre (by decide)
    · rw [draw_shape_unknown args mpl hp]
      exact all_append2 hPre (by decide)
  refine ⟨hAll, callerWriteEntries_eq_nil _ hAll, ?_⟩
  show styleUpdate init (callerWriteEntries (draw args mpl).trace) = init
  rw [callerWriteEntries_eq_nil _ hAll]
  rfl

end Timeline
